/-
Verification of the gracychat request handler (Python, two source variants:
`src/lambda/lambda_function.py` and the refactored `src/functions/` package)
against its natural-language specification.

The embedding is shallow: Python dicts/JSON values become the inductive `JVal`
(numbers are modelled as `Int`; the only float in the system, the temperature,
is carried opaquely and never computed on), timestamps become `Int`, the two
in-memory caches become association lists threaded explicitly, the two
upstream HTTP APIs become an explicit per-call outcome parameter, and Python
exceptions become the `Except PyErr` monad.  Fallible subscript/attribute
operations of the source are modelled by total Lean functions returning
`Except PyErr`.
-/
import Mathlib

set_option maxHeartbeats 1000000

namespace Gracychat

/-- The Python exceptions that the source code can raise or catch.
`jsonDecodeError` and `typeError` are caught by `extract_query`'s
`except (json.JSONDecodeError, TypeError)` clause; `requestException`
(which subsumes `HTTPError` from `raise_for_status`) is caught by the
fetchers; `attributeError`, `keyError` and `indexError` are caught nowhere. -/
inductive PyErr where
  | attributeError
  | typeError
  | keyError (k : String)
  | indexError
  | jsonDecodeError
deriving DecidableEq

/-- A JSON-like Python value: the payloads flowing through the handler
(`event` fields, parsed bodies, upstream response JSON).  Numbers are
modelled as `Int`. -/
inductive JVal where
  | null
  | bool (b : Bool)
  | num (n : Int)
  | str (s : String)
  | arr (elems : List JVal)
  | obj (kvs : List (String × JVal))

/-- Python truthiness of a JSON-like value (`if not query`, `and event["body"]`). -/
def jTruthy : JVal → Bool
  | .null => false
  | .bool b => b
  | .num n => n != 0
  | .str s => s != ""
  | .arr l => !l.isEmpty
  | .obj l => !l.isEmpty

/-- Lookup `d.get(k)` on a Python dict built by `json.loads` / delivered as the event:
first matching key wins (our association lists are built without duplicate
keys, mirroring a Python dict). -/
def dictFind (kvs : List (String × JVal)) (k : String) : Option JVal :=
  match kvs with
  | [] => none
  | (k', v) :: t => if k' = k then some v else dictFind t k

/-- Subscript `d[k]` on a JSON value, as Python evaluates it: a dict yields the
value or raises `KeyError`; any non-dict JSON value raises `TypeError`
(ints/None/bools are not subscriptable; `str`/`list` subscripts with a string
key raise `TypeError` as well). -/
def getItem (v : JVal) (k : String) : Except PyErr JVal :=
  match v with
  | .obj kvs =>
    match dictFind kvs k with
    | some x => .ok x
    | none => .error (.keyError k)
  | _ => .error .typeError

/-- Subscript `v[0]` on a JSON value, as Python evaluates it: list indexing
(IndexError when empty), string indexing (first character, IndexError when
empty), `KeyError` for a dict without the key `0`, `TypeError` otherwise. -/
def index0 (v : JVal) : Except PyErr JVal :=
  match v with
  | .arr (x :: _) => .ok x
  | .arr [] => .error .indexError
  | .str s =>
    match s.toList with
    | c :: _ => .ok (.str (String.mk [c]))
    | [] => .error .indexError
  | .obj _ => .error (.keyError "0")
  | _ => .error .typeError

/-! ### `json.dumps` (Python defaults: separators `", "` and `": "`) -/

/-- Escape one character of a JSON string the way `json.dumps` (default
`ensure_ascii=True`) does for the characters this system can produce. -/
def escChar (c : Char) : String :=
  if c = '"' then "\\\""
  else if c = '\\' then "\\\\"
  else if c = '\n' then "\\n"
  else if c = '\t' then "\\t"
  else if c = '\r' then "\\r"
  else String.mk [c]

def escString (s : String) : String :=
  String.join (s.toList.map escChar)

mutual

/-- Serialization `json.dumps` with Python's default separators (`", "`, `": "`) and
insertion-ordered object keys. -/
def dumps : JVal → String
  | .null => "null"
  | .bool true => "true"
  | .bool false => "false"
  | .num n => toString n
  | .str s => "\"" ++ escString s ++ "\""
  | .arr l => "[" ++ dumpsArr l ++ "]"
  | .obj l => "\x7b" ++ dumpsObj l ++ "\x7d"

def dumpsArr : List JVal → String
  | [] => ""
  | [x] => dumps x
  | x :: y :: t => dumps x ++ ", " ++ dumpsArr (y :: t)

def dumpsObj : List (String × JVal) → String
  | [] => ""
  | [(k, v)] => "\"" ++ escString k ++ "\": " ++ dumps v
  | (k, v) :: p :: t =>
    "\"" ++ escString k ++ "\": " ++ dumps v ++ ", " ++ dumpsObj (p :: t)

end

/-! ### `json.loads`

A recursive-descent parser for the JSON fragment this system exchanges
(null/true/false, integers, strings with the basic escapes, arrays, objects).
`json.loads` itself is Python-stdlib (an external collaborator); the parser
is only needed to evaluate the model on the concrete event payloads appearing
in the spec and the claims. -/

/-- JSON insignificant whitespace (RFC 8259 / Python `json`): space, tab,
newline, carriage return. -/
def jsonWs (c : Char) : Bool :=
  c = ' ' || c = '\t' || c = '\n' || c = '\r'

def skipWs (l : List Char) : List Char := l.dropWhile jsonWs

/-- Parse the body of a JSON string literal after the opening quote,
returning the decoded characters and the rest after the closing quote. -/
def parseStr (fuel : Nat) (l : List Char) : Option (List Char × List Char) :=
  match fuel, l with
  | 0, _ => none
  | _, [] => none
  | fuel + 1, c :: t =>
    if c = '"' then some ([], t)
    else if c = '\\' then
      match t with
      | [] => none
      | e :: t' =>
        let dec : Option Char :=
          if e = '"' then some '"'
          else if e = '\\' then some '\\'
          else if e = '/' then some '/'
          else if e = 'n' then some '\n'
          else if e = 't' then some '\t'
          else if e = 'r' then some '\r'
          else none
        match dec with
        | none => none
        | some d =>
          match parseStr fuel t' with
          | some (cs, rest) => some (d :: cs, rest)
          | none => none
    else
      match parseStr fuel t with
      | some (cs, rest) => some (c :: cs, rest)
      | none => none

def digitVal (c : Char) : Nat := c.toNat - '0'.toNat

def parseDigits (l : List Char) (acc : Nat) : Option (Nat × List Char) :=
  match l with
  | c :: t =>
    if c.isDigit then
      match parseDigits t (acc * 10 + digitVal c) with
      | some r => some r
      | none => some (acc * 10 + digitVal c, t)
    else none
  | [] => none

mutual

/-- Parse one JSON value (integers only among numbers). -/
def parseVal (fuel : Nat) (l : List Char) : Option (JVal × List Char) :=
  match fuel with
  | 0 => none
  | fuel + 1 =>
    let l := skipWs l
    match l with
    | [] => none
    | c :: t =>
      if c = 'n' then
        if l.take 4 = "null".toList then some (.null, l.drop 4) else none
      else if c = 't' then
        if l.take 4 = "true".toList then some (.bool true, l.drop 4) else none
      else if c = 'f' then
        if l.take 5 = "false".toList then some (.bool false, l.drop 5) else none
      else if c = '"' then
        match parseStr (t.length + 1) t with
        | some (cs, rest) => some (.str (String.mk cs), rest)
        | none => none
      else if c = '-' then
        match parseDigits t 0 with
        | some (n, rest) => some (.num (-(n : Int)), rest)
        | none => none
      else if c.isDigit then
        match parseDigits l 0 with
        | some (n, rest) => some (.num (n : Int), rest)
        | none => none
      else if c = '[' then
        let t' := skipWs t
        match t' with
        | ']' :: r => some (.arr [], r)
        | _ =>
          match parseElems fuel t' with
          | some (xs, rest) => some (.arr xs, rest)
          | none => none
      else if c = '\x7b' then
        let t' := skipWs t
        match t' with
        | '\x7d' :: r => some (.obj [], r)
        | _ =>
          match parseMembers fuel t' with
          | some (kvs, rest) => some (.obj kvs, rest)
          | none => none
      else none

/-- Parse a non-empty comma-separated list of array elements followed by `]`. -/
def parseElems (fuel : Nat) (l : List Char) : Option (List JVal × List Char) :=
  match fuel with
  | 0 => none
  | fuel + 1 =>
    match parseVal fuel l with
    | none => none
    | some (v, rest) =>
      match skipWs rest with
      | ',' :: r =>
        match parseElems fuel (skipWs r) with
        | some (xs, rest') => some (v :: xs, rest')
        | none => none
      | ']' :: r => some ([v], r)
      | _ => none

/-- Parse a non-empty comma-separated list of object members followed by `}`. -/
def parseMembers (fuel : Nat) (l : List Char) : Option (List (String × JVal) × List Char) :=
  match fuel with
  | 0 => none
  | fuel + 1 =>
    match skipWs l with
    | '"' :: t =>
      match parseStr (t.length + 1) t with
      | none => none
      | some (k, rest) =>
        match skipWs rest with
        | ':' :: r =>
          match parseVal fuel (skipWs r) with
          | none => none
          | some (v, rest') =>
            match skipWs rest' with
            | ',' :: r' =>
              match parseMembers fuel (skipWs r') with
              | some (kvs, rest'') => some ((String.mk k, v) :: kvs, rest'')
              | none => none
            | '\x7d' :: r' => some ([(String.mk k, v)], r')
            | _ => none
        | _ => none
    | _ => none

end

/-- Parse a complete JSON document (the whole string must be consumed). -/
def parseJson (s : String) : Option JVal :=
  match parseVal (s.length + 1) s.toList with
  | some (v, rest) => if skipWs rest = [] then some v else none
  | none => none

/-- Deserialization `json.loads(x)` as applied by `extract_query`: a string is parsed
(`JSONDecodeError` on malformed input); any non-string argument raises
`TypeError` (the event's `body` field need not be a string). -/
def jsonLoads (v : JVal) : Except PyErr JVal :=
  match v with
  | .str s =>
    match parseJson s with
    | some r => .ok r
    | none => .error .jsonDecodeError
  | _ => .error .typeError

/-! ### Text utilities: `str.lower`, `str.strip`, `str.rstrip("?")`, `\s` -/

/-- The whitespace characters recognised by Python's `str.isspace`/`str.strip`
and by the regex class `\s` (with the default Unicode matching). -/
def pySpaceList : List Char :=
  [' ', '\t', '\n', '\r', '\x0b', '\x0c',
   '\x1c', '\x1d', '\x1e', '\x1f', '\x85', '\xa0',
   '\u1680', '\u2000', '\u2001', '\u2002', '\u2003', '\u2004', '\u2005',
   '\u2006', '\u2007', '\u2008', '\u2009', '\u200a',
   '\u2028', '\u2029', '\u202f', '\u205f', '\u3000']

def pySpace (c : Char) : Bool := decide (c ∈ pySpaceList)
/-- Lowercasing `str.lower` restricted to ASCII case mapping (every character the routing
keywords can contain; non-ASCII characters are left unchanged). -/
def pyLowerChar (c : Char) : Char :=
  if 'A' ≤ c ∧ c ≤ 'Z' then Char.ofNat (c.toNat + 32) else c

def pyLowerL (l : List Char) : List Char := l.map pyLowerChar

/-- Remove a maximal trailing run of characters satisfying `p`
(`str.rstrip`, and the right half of `str.strip`). -/
def dropTrailing (p : Char → Bool) (l : List Char) : List Char :=
  (l.reverse.dropWhile p).reverse

/-- Trimming `str.strip()`: remove leading and trailing Python whitespace. -/
def pyStrip (l : List Char) : List Char :=
  dropTrailing pySpace (l.dropWhile pySpace)

/-- City extraction `.strip().rstrip("?")` applied to the regex capture: the city extraction
of `process_query` (`src/functions/utils/query.py` line 51,
`src/lambda/lambda_function.py` line 149). -/
def cityOf (g2 : List Char) : List Char :=
  dropTrailing (fun c => c = '?') (pyStrip g2)

/-! ### The regex engine

A backtracking matcher with Python `re` semantics (leftmost search, ordered
alternation, greedy `+`/`*`/`?`) for the constructs used by the two patterns

    weather_pattern = (weather|forecast|temperature)\s+(?:in|for|about|of)?\s*(.+)
    joke_pattern    = (joke|funny|humor)

The lambda variant compiles them without flags and searches the lowercased
query (`src/lambda/lambda_function.py` lines 135-138): literal characters
compare by plain equality (`charEqPlain`).  The functions variant compiles
them with `re.IGNORECASE` (`src/functions/utils/query.py` lines 12-15) and
also searches the lowercased query; under CPython's Unicode IGNORECASE a
literal still matches the casefold equivalents of the pattern character, and
exactly two such equivalents survive `str.lower()` unchanged and fold onto
letters of these patterns: U+017F LATIN SMALL LETTER LONG S matches `s`, and
U+0131 LATIN SMALL LETTER DOTLESS I matches `i` (`charEqIgn`; verified
against CPython 3.11 by exhaustive scan of the BMP and beyond for every
letter of the patterns).  `matchPreBy` returns every suffix reachable after
matching a regex at the head of the input, in exactly the priority order
Python's backtracking explores them. -/

inductive RE where
  | lit (s : List Char)
  | alt (a b : RE)
  | seq (a b : RE)
  | opt (a : RE)
  | plusCls (p : Char → Bool)
  | starCls (p : Char → Bool)

/-- Literal comparison of the lambda variant's flagless patterns: the pattern
character `a` matches exactly itself. -/
def charEqPlain (a c : Char) : Bool := a = c

/-- Literal comparison of the functions variant's `re.IGNORECASE` patterns on
text that already went through `str.lower()`: the pattern character (a
lowercase ASCII letter here) also matches its surviving Unicode casefold
equivalents — long s for `s`, dotless i for `i`.  (U+212A KELVIN SIGN also
folds to `k`, but `str.lower()` already maps it to `k`, so it cannot reach
the matcher and is handled identically by both variants.) -/
def charEqIgn (a c : Char) : Bool :=
  a = c || (a = 's' && c = '\u017f') || (a = 'i' && c = '\u0131')

/-- Match a literal at the head of the input under the character comparison
`eq`, returning the rest. -/
def litDropBy (eq : Char → Char → Bool) : List Char → List Char → Option (List Char)
  | [], s => some s
  | _ :: _, [] => none
  | a :: as, c :: cs => if eq a c then litDropBy eq as cs else none

/-- Suffixes after consuming between `lo` and `hi` characters of the maximal
run satisfying `p`, longest first (greedy order). -/
def greedyRun (p : Char → Bool) (s : List Char) (lo : Nat) : List (List Char) :=
  let n := (s.takeWhile p).length
  ((List.range (n + 1)).filter (fun k => lo ≤ k)).reverse.map (fun k => s.drop k)

/-- All suffixes reachable after matching `r` at the head of `s`, in
backtracking priority order. -/
def matchPreBy (eq : Char → Char → Bool) : RE → List Char → List (List Char)
  | .lit l, s => (litDropBy eq l s).toList
  | .alt a b, s => matchPreBy eq a s ++ matchPreBy eq b s
  | .seq a b, s => (matchPreBy eq a s).flatMap (matchPreBy eq b)
  | .opt a, s => matchPreBy eq a s ++ [s]
  | .plusCls p, s => greedyRun p s 1
  | .starCls p, s => greedyRun p s 0

/-- Everything of `weather_pattern` before the final capture `(.+)`. -/
def weatherPreRE : RE :=
  .seq (.alt (.lit "weather".toList) (.alt (.lit "forecast".toList)
        (.lit "temperature".toList)))
    (.seq (.plusCls pySpace)
      (.seq (.opt (.alt (.lit "in".toList) (.alt (.lit "for".toList)
              (.alt (.lit "about".toList) (.lit "of".toList)))))
        (.starCls pySpace)))

/-- The trailing `(.+)` (greedy, `.` does not match a newline, group must be
non-empty): consumes everything up to the next newline. -/
def dotCapture (s : List Char) : Option (List Char) :=
  match s with
  | [] => none
  | c :: _ => if c = '\n' then none else some (s.takeWhile (fun d => d ≠ '\n'))

/-- Try to match `weather_pattern` anchored at the head of `s`; on success
return group 2 (the city capture). -/
def weatherMatchAtBy (eq : Char → Char → Bool) (s : List Char) :
    Option (List Char) :=
  (matchPreBy eq weatherPreRE s).findSome? dotCapture

/-- Search `weather_pattern.search`: try every start position left to right
(leftmost match wins), returning group 2 of the first match. -/
def weatherSearchBy (eq : Char → Char → Bool) : List Char → Option (List Char)
  | [] => weatherMatchAtBy eq []
  | s@(_ :: t) =>
    match weatherMatchAtBy eq s with
    | some g => some g
    | none => weatherSearchBy eq t

/-- The lambda variant's `weather_pattern.search` (no flags). -/
def weatherSearch : List Char → Option (List Char) :=
  weatherSearchBy charEqPlain

/-- The functions variant's `weather_pattern.search` (`re.IGNORECASE`). -/
def weatherSearchIgn : List Char → Option (List Char) :=
  weatherSearchBy charEqIgn

/-- Substring containment (`pat` occurs contiguously in `s`) under the
character comparison `eq`. -/
def containsSeqBy (eq : Char → Char → Bool) (pat : List Char) :
    List Char → Bool
  | [] => pat.isEmpty
  | s@(_ :: t) => (litDropBy eq pat s).isSome || containsSeqBy eq pat t

/-- Search `joke_pattern.search(...)` used only for its truthiness: the query
contains one of the words joke/funny/humor. -/
def jokeFoundBy (eq : Char → Char → Bool) (s : List Char) : Bool :=
  containsSeqBy eq "joke".toList s || containsSeqBy eq "funny".toList s ||
    containsSeqBy eq "humor".toList s

/-- The lambda variant's `joke_pattern.search` truthiness (no flags). -/
def jokeFound : List Char → Bool := jokeFoundBy charEqPlain

/-- The functions variant's `joke_pattern.search` truthiness
(`re.IGNORECASE`). -/
def jokeFoundIgn : List Char → Bool := jokeFoundBy charEqIgn

/-! ### TTL caches and upstream fetchers -/

/-- One cache slot: `{"data": ..., "expiry": ...}` (timestamps are `Int`
seconds on an abstract timeline; `datetime` arithmetic/comparison becomes
`Int` arithmetic/comparison). -/
structure Entry (α : Type) where
  data : α
  expiry : Int

/-- A Python dict keyed by strings, as an insertion-ordered association list
(first occurrence wins on lookup; our operations never create duplicates). -/
def assocFind {α : Type} (cache : List (String × α)) (k : String) : Option α :=
  match cache with
  | [] => none
  | (k', v) :: t => if k' = k then some v else assocFind t k

/-- Assignment `cache[k] = v` on a Python dict: replace in place, or append. -/
def assocPut {α : Type} (k : String) (v : α) :
    List (String × α) → List (String × α)
  | [] => [(k, v)]
  | (k', v') :: t => if k' = k then (k, v) :: t else (k', v') :: assocPut k v t

/-- Delete a key (used only to express "never cached" observations). -/
def assocDrop {α : Type} (k : String) (cache : List (String × α)) :
    List (String × α) :=
  cache.filter (fun p => p.1 ≠ k)

/-- The cache read guard shared by both fetchers
(`if city in weather_cache and weather_cache[city]["expiry"] > now`,
`src/functions/api/weather.py` lines 21-23, `src/functions/api/joke.py`
lines 21-23, `src/lambda/lambda_function.py` lines 63-65 and 94-96):
return the stored data iff an entry exists and its expiry is strictly
after `now`. -/
def cacheRead {α : Type} (cache : List (String × Entry α)) (k : String)
    (now : Int) : Option α :=
  match assocFind cache k with
  | some e => if e.expiry > now then some e.data else none
  | none => none

/-- The outcome of one upstream HTTP GET, as observed by the fetcher:
either `requests.get` raises a transport-level `RequestException`, or a
response arrives with a status code and a JSON body. -/
inductive HttpOutcome where
  | transportError
  | response (status : Nat) (body : JVal)

/-- The weather dict built on success (`{"city_name": ..., "description": ...,
"temperature_celsius": ...}`); field values are whatever JSON the upstream
returned (the source performs no type checks on them). -/
structure WeatherData where
  city_name : JVal
  description : JVal
  temperature_celsius : JVal

/-- What `get_weather` returns when it returns normally: the weather dict, or
the `{"error": msg}` dict.  `hasErrorKey` transcribes the caller's
`"error" not in weather_data` test (the success dict never has an `"error"`
key; the failure dict always does). -/
inductive WRet where
  | data (d : WeatherData)
  | errorDict (msg : String)

def WRet.hasErrorKey : WRet → Bool
  | .data _ => false
  | .errorDict _ => true

abbrev WCache := List (String × Entry WeatherData)

def WEATHER_CACHE_EXPIRY_SECONDS : Int := 60
def JOKE_CACHE_EXPIRY_SECONDS : Int := 60

/-- The two variants differ only in this string: the lambda variant
(`src/lambda/lambda_function.py` line 85) ends with a period, the functions
variant (`src/functions/api/weather.py` line 43) does not. -/
def wErrMsgLambda : String := "Failed to fetch weather data due to an API error."
def wErrMsgFunctions : String := "Failed to fetch weather data due to an API error"

def jokeErrMsg : String := "Failed to fetch joke due to an API error."

/-- Predicate for `raise_for_status()`: it raises `HTTPError` exactly for 4xx/5xx statuses. -/
def raisesForStatus (status : Nat) : Bool := 400 ≤ status && status ≤ 599

/-- Fetcher `get_weather(city)` (`src/functions/api/weather.py` lines 15-43 and
`src/lambda/lambda_function.py` lines 57-85, identical up to `errMsg`):
cache check, then the HTTP call.  The `try` block catches only
`requests.exceptions.RequestException` (transport error and
`raise_for_status`); the subscripts `data["name"]`,
`data["weather"][0]["description"]`, `data["main"]["temp"]` can raise
`KeyError`/`TypeError`/`IndexError`, which escape.  The returned `Nat`
counts upstream HTTP calls issued (0 or 1). -/
def get_weather_core (errMsg : String) (city : String) (now : Int)
    (cache : WCache) (up : HttpOutcome) :
    Except PyErr (WRet × WCache × Nat) :=
  match cacheRead cache city now with
  | some d => .ok (.data d, cache, 0)
  | none =>
    match up with
    | .transportError => .ok (.errorDict errMsg, cache, 1)
    | .response status body =>
      if raisesForStatus status then .ok (.errorDict errMsg, cache, 1)
      else
        match getItem body "name" with
        | .error e => .error e
        | .ok name =>
          match getItem body "weather" with
          | .error e => .error e
          | .ok wlist =>
            match index0 wlist with
            | .error e => .error e
            | .ok w0 =>
              match getItem w0 "description" with
              | .error e => .error e
              | .ok desc =>
                match getItem body "main" with
                | .error e => .error e
                | .ok main =>
                  match getItem main "temp" with
                  | .error e => .error e
                  | .ok temp =>
                    let wd : WeatherData :=
                      { city_name := name, description := desc,
                        temperature_celsius := temp }
                    .ok (.data wd,
                         assocPut city
                           { data := wd,
                             expiry := now + WEATHER_CACHE_EXPIRY_SECONDS }
                           cache,
                         1)

def get_weather_lambda : String → Int → WCache → HttpOutcome →
    Except PyErr (WRet × WCache × Nat) :=
  get_weather_core wErrMsgLambda

def get_weather_functions : String → Int → WCache → HttpOutcome →
    Except PyErr (WRet × WCache × Nat) :=
  get_weather_core wErrMsgFunctions

/-- The joke dict (`{"setup": ..., "punchline": ...}`). -/
structure JokeData where
  setup : JVal
  punchline : JVal

inductive JRet where
  | data (d : JokeData)
  | errorDict (msg : String)

def JRet.hasErrorKey : JRet → Bool
  | .data _ => false
  | .errorDict _ => true

abbrev JCache := List (String × Entry JokeData)

/-- Fetcher `get_joke()` (`src/functions/api/joke.py` lines 16-39 and
`src/lambda/lambda_function.py` lines 88-112, identical in both variants):
single fixed cache key `"joke"`, no request parameters. -/
def get_joke (now : Int) (cache : JCache) (up : HttpOutcome) :
    Except PyErr (JRet × JCache × Nat) :=
  match cacheRead cache "joke" now with
  | some d => .ok (.data d, cache, 0)
  | none =>
    match up with
    | .transportError => .ok (.errorDict jokeErrMsg, cache, 1)
    | .response status body =>
      if raisesForStatus status then .ok (.errorDict jokeErrMsg, cache, 1)
      else
        match getItem body "setup" with
        | .error e => .error e
        | .ok setup =>
          match getItem body "punchline" with
          | .error e => .error e
          | .ok punchline =>
            let jd : JokeData := { setup := setup, punchline := punchline }
            .ok (.data jd,
                 assocPut "joke"
                   { data := jd, expiry := now + JOKE_CACHE_EXPIRY_SECONDS }
                   cache,
                 1)

/-! ### `process_query` (the router + assembler) -/

/-- The assembled response dict.  Only these five keys are ever inserted;
each is `none` when absent.  Insertion order in the source is
weather/weather_error, then joke/joke_error, then general_response, which
`frToJ` reproduces. -/
structure FinalResponse where
  weather : Option WeatherData := none
  weather_error : Option String := none
  joke : Option JokeData := none
  joke_error : Option String := none
  general_response : Option String := none

/-- Emptiness test `if not final_response:` — the dict is empty (no key was inserted). -/
def FinalResponse.isEmptyDict (fr : FinalResponse) : Bool :=
  fr.weather.isNone && fr.weather_error.isNone && fr.joke.isNone &&
    fr.joke_error.isNone && fr.general_response.isNone

def generalMsg : String := "I can only process weather and joke requests."

/-- Result of one `process_query` run, with observations: the final caches
and, as ghost instrumentation, the list of cities `get_weather` was invoked
with, the number of `get_joke` invocations, and the upstream HTTP calls each
fetcher issued. -/
structure PQOut where
  fr : FinalResponse
  wc : WCache
  jc : JCache
  weatherCalls : List String
  jokeCalls : Nat
  wHttp : Nat
  jHttp : Nat

/-- Router and assembler `process_query` (`src/functions/utils/query.py` lines 41-70 and
`src/lambda/lambda_function.py` lines 141-165; the two bodies are identical,
the functions variant receiving the fetchers as parameters and the lambda
variant calling its own globals.  The variants differ in the weather error
message `errMsg` and in their compiled patterns — the functions variant's
carry `re.IGNORECASE` — so the searches are parameters `wSearch`/`jFound`).
`query.lower()` raises `AttributeError` on a non-string query; each branch
stores exactly one of the domain's two keys; the final
`if not final_response` installs the fallback message. -/
def process_query_core (errMsg : String)
    (wSearch : List Char → Option (List Char)) (jFound : List Char → Bool)
    (query : JVal) (now : Int)
    (wc : WCache) (jc : JCache) (upW upJ : HttpOutcome) :
    Except PyErr PQOut :=
  match query with
  | .str q =>
    let ql := pyLowerL q.toList
    -- weather branch
    let wstep : Except PyErr (FinalResponse × WCache × List String × Nat) :=
      match wSearch ql with
      | none => .ok ({}, wc, [], 0)
      | some g2 =>
        let city := String.mk (cityOf g2)
        match get_weather_core errMsg city now wc upW with
        | .error e => .error e
        | .ok (ret, wc', n) =>
          match ret with
          | .data d => .ok ({ weather := some d }, wc', [city], n)
          | .errorDict m => .ok ({ weather_error := some m }, wc', [city], n)
    match wstep with
    | .error e => .error e
    | .ok (fr₁, wc', wcalls, wn) =>
      -- joke branch
      let jstep : Except PyErr (FinalResponse × JCache × Nat × Nat) :=
        if jFound ql then
          match get_joke now jc upJ with
          | .error e => .error e
          | .ok (ret, jc', n) =>
            match ret with
            | .data d => .ok ({ fr₁ with joke := some d }, jc', 1, n)
            | .errorDict m => .ok ({ fr₁ with joke_error := some m }, jc', 1, n)
        else .ok (fr₁, jc, 0, 0)
      match jstep with
      | .error e => .error e
      | .ok (fr₂, jc', jcalls, jn) =>
        let fr₃ :=
          if fr₂.isEmptyDict then { fr₂ with general_response := some generalMsg }
          else fr₂
        .ok { fr := fr₃, wc := wc', jc := jc', weatherCalls := wcalls,
              jokeCalls := jcalls, wHttp := wn, jHttp := jn }
  | _ => .error .attributeError

def process_query_lambda : JVal → Int → WCache → JCache → HttpOutcome →
    HttpOutcome → Except PyErr PQOut :=
  process_query_core wErrMsgLambda weatherSearch jokeFound

def process_query_functions : JVal → Int → WCache → JCache → HttpOutcome →
    HttpOutcome → Except PyErr PQOut :=
  process_query_core wErrMsgFunctions weatherSearchIgn jokeFoundIgn

/-- Serialize the response dict in source insertion order (for
`json.dumps(final_response)`). -/
def wdToJ (d : WeatherData) : JVal :=
  .obj [("city_name", d.city_name), ("description", d.description),
        ("temperature_celsius", d.temperature_celsius)]

def jdToJ (d : JokeData) : JVal :=
  .obj [("setup", d.setup), ("punchline", d.punchline)]

def frToJ (fr : FinalResponse) : JVal :=
  .obj ((fr.weather.map (fun d => ("weather", wdToJ d))).toList ++
        (fr.weather_error.map (fun m => ("weather_error", JVal.str m))).toList ++
        (fr.joke.map (fun d => ("joke", jdToJ d))).toList ++
        (fr.joke_error.map (fun m => ("joke_error", JVal.str m))).toList ++
        (fr.general_response.map (fun m => ("general_response", JVal.str m))).toList)

/-! ### `extract_query` (the two variants differ) -/

/-- The inbound invocation: the event dict delivered by the platform
(always a mapping here, so the `isinstance(event, dict)` guard of the third
branch is always satisfied). -/
abbrev Event := List (String × JVal)

/-- Lookup `event.get(k, "")` / `d.get("query", "")` with the `""` default. -/
def getOrEmptyStr (kvs : List (String × JVal)) (k : String) : JVal :=
  (dictFind kvs k).getD (.str "")

/-- Lookup `request_body.get("query", "")` where `request_body` came from
`json.loads`: only a dict has `.get`; any other JSON value raises
`AttributeError` (which `except (json.JSONDecodeError, TypeError)` does NOT
catch). -/
def dictGetQuery (v : JVal) : Except PyErr JVal :=
  match v with
  | .obj kvs => .ok (getOrEmptyStr kvs "query")
  | _ => .error .attributeError

/-- Is this exception caught by `except (json.JSONDecodeError, TypeError)`? -/
def caughtByExtract : PyErr → Bool
  | .jsonDecodeError => true
  | .typeError => true
  | _ => false

/-- The shared body/queryStringParameters/top-level cascade of
`extract_query`; `inBodyUserQuery` is `true` for the functions variant
(`src/functions/utils/query.py` lines 18-38), which sets
`user_query = query` in the first two branches as well, and `false` for the
lambda variant (`src/lambda/lambda_function.py` lines 115-132), which
assigns `user_query` only in the top-level branch.  A caught exception
yields `return "", ""`. -/
def extract_query_core (inBodyUserQuery : Bool) (event : Event) :
    Except PyErr (JVal × JVal) :=
  let attempt : Except PyErr (JVal × JVal) :=
    match dictFind event "body" with
    | some b =>
      if jTruthy b then
        match jsonLoads b with
        | .error e => .error e
        | .ok rb =>
          match dictGetQuery rb with
          | .error e => .error e
          | .ok q => .ok (q, if inBodyUserQuery then q else .str "")
      else
        match dictFind event "queryStringParameters" with
        | some qs =>
          if jTruthy qs then
            match dictGetQuery qs with
            | .error e => .error e
            | .ok q => .ok (q, if inBodyUserQuery then q else .str "")
          else .ok (getOrEmptyStr event "query", getOrEmptyStr event "query")
        | none => .ok (getOrEmptyStr event "query", getOrEmptyStr event "query")
    | none =>
      match dictFind event "queryStringParameters" with
      | some qs =>
        if jTruthy qs then
          match dictGetQuery qs with
          | .error e => .error e
          | .ok q => .ok (q, if inBodyUserQuery then q else .str "")
        else .ok (getOrEmptyStr event "query", getOrEmptyStr event "query")
      | none => .ok (getOrEmptyStr event "query", getOrEmptyStr event "query")
  match attempt with
  | .error e => if caughtByExtract e then .ok (.str "", .str "") else .error e
  | .ok r => .ok r

def extract_query_lambda : Event → Except PyErr (JVal × JVal) :=
  extract_query_core false

def extract_query_functions : Event → Except PyErr (JVal × JVal) :=
  extract_query_core true

/-! ### `lambda_handler` -/

/-- The outbound envelope `{statusCode, headers, body}`. -/
structure Envelope where
  statusCode : Nat
  headers : List (String × String)
  body : String

/-- The record submitted to the audit logger (`log_query`): the `Query` and
`Response` attributes (the timestamp comes from the ambient clock and is not
modelled).  The DynamoDB `put_item` itself is best-effort: its failure is
swallowed by `except Exception`, so the submitted record is the whole
observable. -/
structure AuditRecord where
  query : JVal
  response : String

/-- One handler run's observable outcome (plus the final caches and, as ghost
data, the query that was routed). -/
structure HOut where
  statusCode : Nat
  fr : Option FinalResponse
  queryUsed : JVal
  userQuery : JVal
  wc : WCache
  jc : JCache

def contentTypeJson : List (String × String) := [("Content-Type", "application/json")]

def missingQueryBody : String := dumps (.obj [("error", .str "Missing query")])

/-- The envelope the handler returns for a given run outcome. -/
def envelopeOf (h : HOut) : Envelope :=
  match h.fr with
  | none => { statusCode := 400, headers := contentTypeJson, body := missingQueryBody }
  | some fr => { statusCode := 200, headers := contentTypeJson, body := dumps (frToJ fr) }

/-- The audit record the handler submits (none on the 400 path, which
returns before `log_query`). -/
def auditOf (h : HOut) : Option AuditRecord :=
  h.fr.map (fun fr => { query := h.userQuery, response := dumps (frToJ fr) })

/-- Handler `lambda_handler` (`src/lambda/lambda_function.py` lines 189-212 and
`src/functions/lambda_function.py` lines 37-59, identical up to the
extract/fetch variants they call): extract, the `if not query` 400 guard,
`process_query`, `log_query`, and the 200 envelope. -/
def lambda_handler_core (inBodyUserQuery : Bool) (errMsg : String)
    (wSearch : List Char → Option (List Char)) (jFound : List Char → Bool)
    (event : Event) (now : Int) (wc : WCache) (jc : JCache)
    (upW upJ : HttpOutcome) : Except PyErr HOut :=
  match extract_query_core inBodyUserQuery event with
  | .error e => .error e
  | .ok (query, user_query) =>
    if jTruthy query then
      match process_query_core errMsg wSearch jFound query now wc jc upW upJ with
      | .error e => .error e
      | .ok out =>
        .ok { statusCode := 200, fr := some out.fr, queryUsed := query,
              userQuery := user_query, wc := out.wc, jc := out.jc }
    else
      .ok { statusCode := 400, fr := none, queryUsed := query,
            userQuery := user_query, wc := wc, jc := jc }

def lambda_handler_lambda : Event → Int → WCache → JCache → HttpOutcome →
    HttpOutcome → Except PyErr HOut :=
  lambda_handler_core false wErrMsgLambda weatherSearch jokeFound

def lambda_handler_functions : Event → Int → WCache → JCache → HttpOutcome →
    HttpOutcome → Except PyErr HOut :=
  lambda_handler_core true wErrMsgFunctions weatherSearchIgn jokeFoundIgn

/-- The weather-error-message adjustment between the two variants: the only
difference between their `get_weather` outputs. -/
def adjWRet : WRet → WRet
  | .data d => .data d
  | .errorDict _ => .errorDict wErrMsgFunctions

def adjW (fr : FinalResponse) : FinalResponse :=
  { fr with weather_error := fr.weather_error.map (fun _ => wErrMsgFunctions) }

/-- The routing observations of `process_query` (spec `route`): weather
intent and the extracted city, for the lambda variant's flagless patterns
and for the functions variant's `re.IGNORECASE` patterns. -/
def wantsWeather (q : String) : Bool :=
  (weatherSearch (pyLowerL q.toList)).isSome

def routeCity (q : String) : Option (List Char) :=
  (weatherSearch (pyLowerL q.toList)).map cityOf

def wantsWeatherIgn (q : String) : Bool :=
  (weatherSearchIgn (pyLowerL q.toList)).isSome

def routeCityIgn (q : String) : Option (List Char) :=
  (weatherSearchIgn (pyLowerL q.toList)).map cityOf

/-- The response-dict contribution of a fetcher's normal return: the data
under the success key, or the message under the error key (transcribing the
`"error" not in ...` branch of `process_query`). -/
def wretData : WRet → Option WeatherData
  | .data d => some d
  | .errorDict _ => none

def wretErr : WRet → Option String
  | .data _ => none
  | .errorDict m => some m

def jretData : JRet → Option JokeData
  | .data d => some d
  | .errorDict _ => none

def jretErr : JRet → Option String
  | .data _ => none
  | .errorDict m => some m

/-! ## Helper lemmas -/

theorem assocFind_assocPut_self {α : Type} (k : String) (v : α)
    (l : List (String × α)) : assocFind (assocPut k v l) k = some v := by
  induction l with
  | nil => simp [assocPut, assocFind]
  | cons p t ih =>
    obtain ⟨k', v'⟩ := p
    by_cases hk : k' = k
    · simp [assocPut, hk, assocFind]
    · simp [assocPut, hk, assocFind, ih]

theorem assocFind_assocDrop {α : Type} (k : String) (l : List (String × α)) :
    assocFind (assocDrop k l) k = none := by
  induction l with
  | nil => simp [assocDrop, assocFind]
  | cons p t ih =>
    obtain ⟨k', v'⟩ := p
    by_cases hk : k' = k
    · simpa [assocDrop, hk] using ih
    · simpa [assocDrop, hk, assocFind] using ih

theorem head?_dropWhile_not (p : Char → Bool) (l : List Char) (c : Char)
    (h : (l.dropWhile p).head? = some c) : p c = false := by
  induction l with
  | nil => simp [List.dropWhile] at h
  | cons a t ih =>
    by_cases ha : p a
    · exact ih (by simpa [List.dropWhile, ha] using h)
    · simp [List.dropWhile, ha] at h
      subst h
      simpa using ha

theorem dropTrailing_eq_append (p : Char → Bool) (l : List Char) :
    ∃ t, l = dropTrailing p l ++ t := by
  refine ⟨(l.reverse.takeWhile p).reverse, ?_⟩
  have key : (dropTrailing p l ++ (l.reverse.takeWhile p).reverse).reverse
      = l.reverse := by
    simp [dropTrailing, List.reverse_append]
  exact (List.reverse_injective key).symm

theorem getLast?_dropTrailing_not (p : Char → Bool) (l : List Char) (c : Char)
    (h : (dropTrailing p l).getLast? = some c) : p c = false := by
  unfold dropTrailing at h
  rw [List.getLast?_reverse] at h
  exact head?_dropWhile_not p l.reverse c h

theorem head?_append_of_head? {l t : List Char} {c : Char}
    (h : l.head? = some c) : (l ++ t).head? = some c := by
  cases l with
  | nil => simp at h
  | cons a l' => simpa using h

/-- The `cityOf` output never starts with whitespace: it is an initial segment of
the whitespace-stripped capture. -/
theorem cityOf_head_not_space (g2 : List Char) (c : Char)
    (h : (cityOf g2).head? = some c) : pySpace c = false := by
  unfold cityOf pyStrip at h
  obtain ⟨t1, ht1⟩ :=
    dropTrailing_eq_append (fun c => c = '?')
      (dropTrailing pySpace (g2.dropWhile pySpace))
  obtain ⟨t2, ht2⟩ := dropTrailing_eq_append pySpace (g2.dropWhile pySpace)
  have h1 : (dropTrailing pySpace (g2.dropWhile pySpace)).head? = some c := by
    rw [ht1]
    exact head?_append_of_head? h
  have h2 : (g2.dropWhile pySpace).head? = some c := by
    rw [ht2]
    exact head?_append_of_head? h1
  exact head?_dropWhile_not pySpace g2 c h2

/-- The `cityOf` output never ends in `'?'` (that is exactly what the trailing
`rstrip("?")` removes). -/
theorem cityOf_getLast_ne_qmark (g2 : List Char) (c : Char)
    (h : (cityOf g2).getLast? = some c) : c ≠ '?' := by
  unfold cityOf at h
  have := getLast?_dropTrailing_not (fun c => c = '?') (pyStrip g2) c h
  simpa using this

/-! ## The claims -/

/-- Claim C1 (code bug).  The claim says every invocation yields a well-formed
envelope, naming in particular a `body` field holding valid JSON that is not
an object.  On the event `{"body": "[1, 2]"}` both variants raise an uncaught
`AttributeError`: `json.loads` returns a list, `request_body.get` does not
exist on a list, and `extract_query` catches only `json.JSONDecodeError` and
`TypeError`.  No envelope is returned. -/
theorem C1_nonobject_body_raises :
    lambda_handler_lambda [("body", .str "[1, 2]")] 0 [] []
      .transportError .transportError = .error .attributeError ∧
    lambda_handler_functions [("body", .str "[1, 2]")] 0 [] []
      .transportError .transportError = .error .attributeError :=
  ⟨rfl, rfl⟩

/-- Claim C2 (code bug).  The claim says a 2xx upstream response whose JSON
lacks an expected field makes `fetchWeather` return the error marker without
raising.  In fact `data["name"]` raises an uncaught `KeyError` (the `except`
clause catches only `requests.exceptions.RequestException`), shown here on a
200 response missing `"name"`.  The transport-error and non-2xx legs do
behave as claimed (second and third conjuncts: marker returned, cache left
unchanged, in the lambda variant with the exact message of the claim). -/
theorem C2_missing_field_raises :
    get_weather_lambda "paris" 0 []
      (.response 200 (.obj [("weather", .arr [.obj [("description", .str "clear sky")]]),
                            ("main", .obj [("temp", .num 18)])]))
      = .error (.keyError "name") ∧
    get_weather_lambda "paris" 0 [] .transportError
      = .ok (.errorDict "Failed to fetch weather data due to an API error.", [], 1) ∧
    get_weather_lambda "paris" 0 [] (.response 503 .null)
      = .ok (.errorDict "Failed to fetch weather data due to an API error.", [], 1) :=
  ⟨rfl, rfl, rfl⟩

/-- Claim C5 (code bug).  The claim says the audit record always carries the
extracted query text.  In the lambda variant (`src/lambda/lambda_function.py`
lines 115-132) `user_query` is assigned only in the top-level-field branch,
so a body-sourced query is processed as `"tell me a joke"` while the audit
record's `Query` is `""`.  (The functions variant logs the extracted query,
last conjunct.) -/
theorem C5_body_query_not_logged :
    (lambda_handler_lambda [("body", .str "\x7b\"query\": \"tell me a joke\"\x7d")]
        0 [] [] .transportError
        (.response 200 (.obj [("setup", .str "s"), ("punchline", .str "p")]))).map
      (fun h => (h.queryUsed, (auditOf h).map AuditRecord.query))
      = .ok (.str "tell me a joke", some (.str "")) ∧
    (JVal.str "" ≠ JVal.str "tell me a joke") ∧
    (lambda_handler_functions [("body", .str "\x7b\"query\": \"tell me a joke\"\x7d")]
        0 [] [] .transportError
        (.response 200 (.obj [("setup", .str "s"), ("punchline", .str "p")]))).map
      (fun h => (h.queryUsed, (auditOf h).map AuditRecord.query))
      = .ok (.str "tell me a joke", some (.str "tell me a joke")) :=
  ⟨rfl, by simp, rfl⟩

/-- Claim C3 (counterexample).  The claim says the extracted city never has
trailing whitespace.  On `"weather in paris ?"` the capture is `"paris ?"`;
`strip()` runs before `rstrip("?")`, so removing the `'?'` exposes the inner
space and the city is `"paris "` — trailing whitespace. -/
theorem C3_trailing_space_city :
    routeCity "weather in paris ?" = some "paris ".toList ∧
    ("paris ".toList).getLast? = some ' ' ∧ pySpace ' ' = true := by
  refine ⟨by rfl, by rfl, by decide⟩

/-- Claim C3 (amended).  For every query the weather pattern matches (the
capture is necessarily a non-empty trailing phrase), `route` yields
`wantsWeather = true` and a city with no leading whitespace and no trailing
`'?'`; trailing whitespace, however, can survive when stripping a trailing
`'?'` exposes it. -/
theorem C3_city_trimming (q : String) (g2 : List Char)
    (h : weatherSearch (pyLowerL q.toList) = some g2) :
    wantsWeather q = true ∧ routeCity q = some (cityOf g2) ∧
    (∀ c, (cityOf g2).head? = some c → pySpace c = false) ∧
    (∀ c, (cityOf g2).getLast? = some c → c ≠ '?') := by
  refine ⟨?_, ?_, ?_, ?_⟩
  · unfold wantsWeather
    rw [h]
    rfl
  · unfold routeCity
    rw [h]
    rfl
  · exact cityOf_head_not_space g2
  · exact cityOf_getLast_ne_qmark g2

theorem C3_city_trimming_witness :
    weatherSearch (pyLowerL "weather in tokyo".toList) = some "tokyo".toList ∧
    (wantsWeather "weather in tokyo" = true ∧
     routeCity "weather in tokyo" = some (cityOf "tokyo".toList) ∧
     (∀ c, (cityOf "tokyo".toList).head? = some c → pySpace c = false) ∧
     (∀ c, (cityOf "tokyo".toList).getLast? = some c → c ≠ '?')) :=
  ⟨by rfl, C3_city_trimming "weather in tokyo" "tokyo".toList (by rfl)⟩

/-- Claim C4 (counterexample).  The claim says that when the weather keyword
matches but the trimmed city is empty the fetcher is not invoked and the
result falls to `general_response`.  On `"weather ?"` (no joke keyword) the
pattern matches with capture `"?"`, the city trims to `""`, and the source
calls `get_weather("")` anyway: the response carries `weather_error` (here,
under a failing upstream), not `general_response`. -/
theorem C4_empty_city_fetches :
    routeCity "weather ?" = some [] ∧
    (process_query_functions (.str "weather ?") 0 [] []
        .transportError .transportError).map
      (fun o => (o.weatherCalls, o.fr.weather_error.isSome,
                 o.fr.general_response))
      = .ok ([""], true, none) :=
  ⟨rfl, rfl⟩

/-- When the weather pattern matches, a normally-returning `process_query`
has invoked the weather fetcher on exactly the extracted city (even an empty
one), its weather fields mirror the fetcher's return, and it never falls
back to `general_response`. -/
theorem process_weather_fields (errMsg : String)
    (wSearch : List Char → Option (List Char)) (jFound : List Char → Bool)
    (q : String) (now : Int)
    (wc : WCache) (jc : JCache) (upW upJ : HttpOutcome) (g2 : List Char)
    (out : PQOut)
    (hs : wSearch (pyLowerL q.toList) = some g2)
    (hr : process_query_core errMsg wSearch jFound (.str q) now wc jc upW upJ = .ok out) :
    ∃ wret wc' wn,
      get_weather_core errMsg (String.mk (cityOf g2)) now wc upW
        = .ok (wret, wc', wn) ∧
      out.wc = wc' ∧ out.weatherCalls = [String.mk (cityOf g2)] ∧
      out.wHttp = wn ∧ out.fr.weather = wretData wret ∧
      out.fr.weather_error = wretErr wret ∧
      out.fr.general_response = none := by
  simp only [process_query_core] at hr
  rw [hs] at hr
  dsimp only at hr
  rcases hgw : get_weather_core errMsg (String.mk (cityOf g2)) now wc upW with
    e | ⟨ret, wc', n⟩
  · rw [hgw] at hr
    simp at hr
  · rw [hgw] at hr
    refine ⟨ret, wc', n, rfl, ?_⟩
    rcases ret with d | m <;>
      dsimp only at hr <;>
      [skip; skip] <;>
      cases hjf : jFound (pyLowerL q.toList) <;>
      rw [hjf] at hr <;>
      simp only [Bool.false_eq_true, if_false, if_true, reduceIte] at hr
    case data.false | errorDict.false =>
      simp [FinalResponse.isEmptyDict] at hr
      subst hr
      simp [wretData, wretErr]
    case data.true | errorDict.true =>
      rcases hj : get_joke now jc upJ with e' | ⟨jret, jc', jn⟩
      · rw [hj] at hr
        simp at hr
      · rw [hj] at hr
        rcases jret with jd | jm <;>
          simp [FinalResponse.isEmptyDict] at hr <;>
          subst hr <;>
          simp [wretData, wretErr]

/-- When the weather pattern does not match, `process_query` leaves the
weather cache untouched, performs no weather fetch, and sets no weather
key. -/
theorem process_no_weather_fields (errMsg : String)
    (wSearch : List Char → Option (List Char)) (jFound : List Char → Bool)
    (q : String) (now : Int)
    (wc : WCache) (jc : JCache) (upW upJ : HttpOutcome) (out : PQOut)
    (hs : wSearch (pyLowerL q.toList) = none)
    (hr : process_query_core errMsg wSearch jFound (.str q) now wc jc upW upJ = .ok out) :
    out.wc = wc ∧ out.weatherCalls = [] ∧ out.wHttp = 0 ∧
    out.fr.weather = none ∧ out.fr.weather_error = none := by
  simp only [process_query_core] at hr
  rw [hs] at hr
  dsimp only at hr
  cases hjf : jFound (pyLowerL q.toList) <;>
    rw [hjf] at hr <;>
    simp only [Bool.false_eq_true, if_false, if_true, reduceIte] at hr
  · simp [FinalResponse.isEmptyDict] at hr
    subst hr
    simp
  · rcases hj : get_joke now jc upJ with e' | ⟨jret, jc', jn⟩
    · rw [hj] at hr
      simp at hr
    · rw [hj] at hr
      rcases jret with jd | jm <;>
        simp [FinalResponse.isEmptyDict] at hr <;>
        subst hr <;>
        simp

/-- When the joke keyword is present, a normally-returning `process_query`
has invoked the joke fetcher exactly once and its joke fields mirror the
fetcher's return; `general_response` is never set. -/
theorem process_joke_fields (errMsg : String)
    (wSearch : List Char → Option (List Char)) (jFound : List Char → Bool)
    (q : String) (now : Int)
    (wc : WCache) (jc : JCache) (upW upJ : HttpOutcome) (out : PQOut)
    (hjf : jFound (pyLowerL q.toList) = true)
    (hr : process_query_core errMsg wSearch jFound (.str q) now wc jc upW upJ = .ok out) :
    ∃ jret jc' jn,
      get_joke now jc upJ = .ok (jret, jc', jn) ∧
      out.jc = jc' ∧ out.jokeCalls = 1 ∧ out.jHttp = jn ∧
      out.fr.joke = jretData jret ∧ out.fr.joke_error = jretErr jret ∧
      out.fr.general_response = none := by
  simp only [process_query_core] at hr
  rcases hws : wSearch (pyLowerL q.toList) with _ | g2 <;>
    rw [hws] at hr <;> dsimp only at hr
  · rw [hjf] at hr
    simp only [if_true, reduceIte] at hr
    rcases hj : get_joke now jc upJ with e' | ⟨jret, jc', jn⟩
    · rw [hj] at hr
      simp at hr
    · rw [hj] at hr
      refine ⟨jret, jc', jn, rfl, ?_⟩
      rcases jret with jd | jm <;>
        simp [FinalResponse.isEmptyDict] at hr <;>
        subst hr <;>
        simp [jretData, jretErr]
  · rcases hgw : get_weather_core errMsg (String.mk (cityOf g2)) now wc upW with
      e | ⟨ret, wc', n⟩
    · rw [hgw] at hr
      simp at hr
    · rw [hgw] at hr
      rcases ret with d | m <;>
        dsimp only at hr <;>
        rw [hjf] at hr <;>
        simp only [if_true, reduceIte] at hr <;>
        (rcases hj : get_joke now jc upJ with e' | ⟨jret, jc', jn⟩
         · rw [hj] at hr
           simp at hr
         · rw [hj] at hr
           refine ⟨jret, jc', jn, rfl, ?_⟩
           rcases jret with jd | jm <;>
             simp [FinalResponse.isEmptyDict] at hr <;>
             subst hr <;>
             simp [jretData, jretErr])

/-- When the joke keyword is absent, `process_query` leaves the joke cache
untouched, performs no joke fetch, and sets no joke key. -/
theorem process_no_joke_fields (errMsg : String)
    (wSearch : List Char → Option (List Char)) (jFound : List Char → Bool)
    (q : String) (now : Int)
    (wc : WCache) (jc : JCache) (upW upJ : HttpOutcome) (out : PQOut)
    (hjf : jFound (pyLowerL q.toList) = false)
    (hr : process_query_core errMsg wSearch jFound (.str q) now wc jc upW upJ = .ok out) :
    out.jc = jc ∧ out.jokeCalls = 0 ∧ out.jHttp = 0 ∧
    out.fr.joke = none ∧ out.fr.joke_error = none := by
  simp only [process_query_core] at hr
  rcases hws : wSearch (pyLowerL q.toList) with _ | g2 <;>
    rw [hws] at hr <;> dsimp only at hr
  · rw [hjf] at hr
    simp only [Bool.false_eq_true, if_false, reduceIte] at hr
    simp [FinalResponse.isEmptyDict] at hr
    subst hr
    simp
  · rcases hgw : get_weather_core errMsg (String.mk (cityOf g2)) now wc upW with
      e | ⟨ret, wc', n⟩
    · rw [hgw] at hr
      simp at hr
    · rw [hgw] at hr
      rcases ret with d | m <;>
        dsimp only at hr <;>
        rw [hjf] at hr <;>
        simp only [Bool.false_eq_true, if_false, reduceIte] at hr <;>
        simp [FinalResponse.isEmptyDict] at hr <;>
        subst hr <;>
        simp

/-- When neither pattern matches, `process_query` is a fixed fallback:
`{"general_response": ...}`, caches untouched, no fetch at all. -/
theorem process_neither_fields (errMsg : String)
    (wSearch : List Char → Option (List Char)) (jFound : List Char → Bool)
    (q : String) (now : Int)
    (wc : WCache) (jc : JCache) (upW upJ : HttpOutcome)
    (hs : wSearch (pyLowerL q.toList) = none)
    (hjf : jFound (pyLowerL q.toList) = false) :
    process_query_core errMsg wSearch jFound (.str q) now wc jc upW upJ
      = .ok { fr := { general_response := some generalMsg }, wc := wc,
              jc := jc, weatherCalls := [], jokeCalls := 0, wHttp := 0,
              jHttp := 0 } := by
  simp only [process_query_core]
  rw [hs]
  dsimp only
  rw [hjf]
  simp [FinalResponse.isEmptyDict]

/-- Every normal return of `get_weather` is a cache hit (no HTTP call), a
failure (error dict, cache unchanged, one call), or a fresh fetch (data
cached under the city, one call). -/
theorem get_weather_core_cases (errMsg city : String) (now : Int)
    (cache : WCache) (up : HttpOutcome) (r : WRet) (c : WCache) (n : Nat)
    (h : get_weather_core errMsg city now cache up = .ok (r, c, n)) :
    (∃ d, cacheRead cache city now = some d ∧ r = .data d ∧ c = cache ∧ n = 0) ∨
    (cacheRead cache city now = none ∧ r = .errorDict errMsg ∧ c = cache ∧ n = 1) ∨
    (∃ d, cacheRead cache city now = none ∧ r = .data d ∧
      c = assocPut city { data := d, expiry := now + WEATHER_CACHE_EXPIRY_SECONDS } cache ∧
      n = 1) := by
  simp only [get_weather_core] at h
  rcases hcr : cacheRead cache city now with _ | d <;> rw [hcr] at h
  · rcases up with _ | ⟨st, body⟩
    · simp at h
      exact Or.inr (Or.inl ⟨rfl, h.1.symm, h.2.1.symm, h.2.2.symm⟩)
    · by_cases hst : raisesForStatus st = true
      · simp [hst] at h
        exact Or.inr (Or.inl ⟨rfl, h.1.symm, h.2.1.symm, h.2.2.symm⟩)
      · simp [hst] at h
        rcases h1 : getItem body "name" with e1 | name <;> rw [h1] at h <;>
          dsimp only at h
        · simp at h
        rcases h2 : getItem body "weather" with e2 | wlist <;> rw [h2] at h <;>
          dsimp only at h
        · simp at h
        rcases h3 : index0 wlist with e3 | w0 <;> rw [h3] at h <;>
          dsimp only at h
        · simp at h
        rcases h4 : getItem w0 "description" with e4 | desc <;> rw [h4] at h <;>
          dsimp only at h
        · simp at h
        rcases h5 : getItem body "main" with e5 | main <;> rw [h5] at h <;>
          dsimp only at h
        · simp at h
        rcases h6 : getItem main "temp" with e6 | temp <;> rw [h6] at h <;>
          dsimp only at h
        · simp at h
        simp at h
        exact Or.inr (Or.inr ⟨_, rfl, h.1.symm, by rw [h.2.1], h.2.2.symm⟩)
  · simp at h
    exact Or.inl ⟨d, rfl, h.1.symm, h.2.1.symm, h.2.2.symm⟩

/-! ## The claims (continued) -/

/-- Claim C4 (amended).  When the weather keyword matches but the extracted
city is empty after trimming, the source does NOT skip the fetch: the
weather fetcher is invoked with the empty city, and the assembled response
carries exactly one of `weather`/`weather_error` from that fetch — never
`general_response` — so the outcome is not "as if no weather match had
occurred". -/
theorem C4_empty_city_still_fetched (q : String) (g2 : List Char) (now : Int)
    (wc : WCache) (jc : JCache) (upW upJ : HttpOutcome) (out : PQOut)
    (hs : weatherSearchIgn (pyLowerL q.toList) = some g2)
    (hc : cityOf g2 = [])
    (hr : process_query_functions (.str q) now wc jc upW upJ = .ok out) :
    out.weatherCalls = [""] ∧
    (out.fr.weather.isSome ≠ out.fr.weather_error.isSome) ∧
    out.fr.general_response = none := by
  obtain ⟨wret, wc', wn, hgw, hwc, hcalls, hhttp, hw, hwe, hg⟩ :=
    process_weather_fields wErrMsgFunctions weatherSearchIgn jokeFoundIgn
      q now wc jc upW upJ g2 out hs hr
  refine ⟨?_, ?_, hg⟩
  · rw [hcalls, hc]
  · rw [hw, hwe]
    cases wret <;> simp [wretData, wretErr]

theorem C4_empty_city_still_fetched_witness :
    weatherSearchIgn (pyLowerL "weather ?".toList) = some "?".toList ∧
    cityOf "?".toList = [] ∧
    process_query_functions (.str "weather ?") 0 [] []
        .transportError .transportError
      = .ok { fr := { weather_error := some wErrMsgFunctions }, wc := [],
              jc := [], weatherCalls := [""], jokeCalls := 0, wHttp := 1,
              jHttp := 0 } ∧
    (({ fr := { weather_error := some wErrMsgFunctions }, wc := [], jc := [],
        weatherCalls := [""], jokeCalls := 0, wHttp := 1,
        jHttp := 0 } : PQOut).weatherCalls = [""] ∧
     ((({ fr := { weather_error := some wErrMsgFunctions }, wc := [], jc := [],
          weatherCalls := [""], jokeCalls := 0, wHttp := 1,
          jHttp := 0 } : PQOut).fr.weather.isSome ≠
        ({ fr := { weather_error := some wErrMsgFunctions }, wc := [], jc := [],
           weatherCalls := [""], jokeCalls := 0, wHttp := 1,
           jHttp := 0 } : PQOut).fr.weather_error.isSome)) ∧
     ({ fr := { weather_error := some wErrMsgFunctions }, wc := [], jc := [],
        weatherCalls := [""], jokeCalls := 0, wHttp := 1,
        jHttp := 0 } : PQOut).fr.general_response = none) :=
  ⟨rfl, rfl, rfl,
   C4_empty_city_still_fetched "weather ?" "?".toList 0 [] []
     .transportError .transportError _ rfl rfl rfl⟩

/-- Claim C6 (confirmed).  Every normally-produced `AggregatedResponse`
satisfies the key invariant — exactly one of `weather`/`weather_error` when
weather was requested, exactly one of `joke`/`joke_error` when a joke was
requested, no domain keys when the domain was not requested,
`general_response` only when no domain key exists — and each domain's
outcome is unaffected by varying the other domain's upstream. -/
theorem C6_aggregated_response_invariant (q : String) (now : Int)
    (wc : WCache) (jc : JCache) (upW upJ : HttpOutcome) (out : PQOut)
    (hr : process_query_functions (.str q) now wc jc upW upJ = .ok out) :
    (wantsWeatherIgn q = true →
      out.fr.weather.isSome ≠ out.fr.weather_error.isSome) ∧
    (wantsWeatherIgn q = false →
      out.fr.weather = none ∧ out.fr.weather_error = none) ∧
    (jokeFoundIgn (pyLowerL q.toList) = true →
      out.fr.joke.isSome ≠ out.fr.joke_error.isSome) ∧
    (jokeFoundIgn (pyLowerL q.toList) = false →
      out.fr.joke = none ∧ out.fr.joke_error = none) ∧
    (out.fr.general_response.isSome = true →
      out.fr.weather = none ∧ out.fr.weather_error = none ∧
      out.fr.joke = none ∧ out.fr.joke_error = none) ∧
    (∀ upW' out',
      process_query_functions (.str q) now wc jc upW' upJ = .ok out' →
      out'.fr.joke = out.fr.joke ∧ out'.fr.joke_error = out.fr.joke_error) ∧
    (∀ upJ' out',
      process_query_functions (.str q) now wc jc upW upJ' = .ok out' →
      out'.fr.weather = out.fr.weather ∧
      out'.fr.weather_error = out.fr.weather_error) := by
  have hwW :
      ∀ (upx : HttpOutcome) (outx : PQOut),
        process_query_functions (.str q) now wc jc upW upx = .ok outx →
        outx.fr.weather = out.fr.weather ∧
        outx.fr.weather_error = out.fr.weather_error ∧
        out.fr.general_response = none ∨
        (weatherSearchIgn (pyLowerL q.toList) = none ∧
         outx.fr.weather = none ∧ outx.fr.weather_error = none ∧
         out.fr.weather = none ∧ out.fr.weather_error = none) := by
    intro upx outx hrx
    rcases hws : weatherSearchIgn (pyLowerL q.toList) with _ | g2
    · exact Or.inr ⟨rfl,
        (process_no_weather_fields _ _ _ q now wc jc upW upx outx hws hrx).2.2.2.1,
        (process_no_weather_fields _ _ _ q now wc jc upW upx outx hws hrx).2.2.2.2,
        (process_no_weather_fields _ _ _ q now wc jc upW upJ out hws hr).2.2.2.1,
        (process_no_weather_fields _ _ _ q now wc jc upW upJ out hws hr).2.2.2.2⟩
    · obtain ⟨w1, c1, n1, hg1, _, _, _, hwa, hwb, hgen⟩ :=
        process_weather_fields wErrMsgFunctions weatherSearchIgn jokeFoundIgn q now wc jc upW upJ g2 out hws hr
      obtain ⟨w2, c2, n2, hg2, _, _, _, hwa2, hwb2, _⟩ :=
        process_weather_fields wErrMsgFunctions weatherSearchIgn jokeFoundIgn q now wc jc upW upx g2 outx hws hrx
      have hw12 : w2 = w1 := by
        have h12 := hg1.symm.trans hg2
        simp at h12
        exact h12.1.symm
      subst hw12
      exact Or.inl ⟨by rw [hwa, hwa2], by rw [hwb, hwb2], hgen⟩
  have hjJ :
      ∀ (upx : HttpOutcome) (outx : PQOut),
        process_query_functions (.str q) now wc jc upx upJ = .ok outx →
        outx.fr.joke = out.fr.joke ∧
        outx.fr.joke_error = out.fr.joke_error ∧
        out.fr.general_response = none ∨
        (jokeFoundIgn (pyLowerL q.toList) = false ∧
         outx.fr.joke = none ∧ outx.fr.joke_error = none ∧
         out.fr.joke = none ∧ out.fr.joke_error = none) := by
    intro upx outx hrx
    cases hjf : jokeFoundIgn (pyLowerL q.toList)
    · exact Or.inr ⟨rfl,
        (process_no_joke_fields _ _ _ q now wc jc upx upJ outx hjf hrx).2.2.2.1,
        (process_no_joke_fields _ _ _ q now wc jc upx upJ outx hjf hrx).2.2.2.2,
        (process_no_joke_fields _ _ _ q now wc jc upW upJ out hjf hr).2.2.2.1,
        (process_no_joke_fields _ _ _ q now wc jc upW upJ out hjf hr).2.2.2.2⟩
    · obtain ⟨j1, c1, n1, hg1, _, _, _, hja, hjb, hgen⟩ :=
        process_joke_fields wErrMsgFunctions weatherSearchIgn jokeFoundIgn q now wc jc upW upJ out hjf hr
      obtain ⟨j2, c2, n2, hg2, _, _, _, hja2, hjb2, _⟩ :=
        process_joke_fields wErrMsgFunctions weatherSearchIgn jokeFoundIgn q now wc jc upx upJ outx hjf hrx
      have hj12 : j2 = j1 := by
        have h12 := hg1.symm.trans hg2
        simp at h12
        exact h12.1.symm
      subst hj12
      exact Or.inl ⟨by rw [hja, hja2], by rw [hjb, hjb2], hgen⟩
  refine ⟨?_, ?_, ?_, ?_, ?_, ?_, ?_⟩
  · intro hW
    rcases hws : weatherSearchIgn (pyLowerL q.toList) with _ | g2
    · rw [wantsWeatherIgn, hws] at hW
      simp at hW
    · obtain ⟨wret, _, _, _, _, _, _, hwa, hwb, _⟩ :=
        process_weather_fields wErrMsgFunctions weatherSearchIgn jokeFoundIgn q now wc jc upW upJ g2 out hws hr
      rw [hwa, hwb]
      cases wret <;> simp [wretData, wretErr]
  · intro hW
    rcases hws : weatherSearchIgn (pyLowerL q.toList) with _ | g2
    · have := process_no_weather_fields wErrMsgFunctions weatherSearchIgn jokeFoundIgn q now wc jc upW upJ out hws hr
      exact ⟨this.2.2.2.1, this.2.2.2.2⟩
    · rw [wantsWeatherIgn, hws] at hW
      simp at hW
  · intro hJ
    obtain ⟨jret, _, _, _, _, _, _, hja, hjb, _⟩ :=
      process_joke_fields wErrMsgFunctions weatherSearchIgn jokeFoundIgn q now wc jc upW upJ out hJ hr
    rw [hja, hjb]
    cases jret <;> simp [jretData, jretErr]
  · intro hJ
    have := process_no_joke_fields wErrMsgFunctions weatherSearchIgn jokeFoundIgn q now wc jc upW upJ out hJ hr
    exact ⟨this.2.2.2.1, this.2.2.2.2⟩
  · intro hG
    rcases hws : weatherSearchIgn (pyLowerL q.toList) with _ | g2
    · cases hjf : jokeFoundIgn (pyLowerL q.toList)
      · have h1 := process_no_weather_fields wErrMsgFunctions weatherSearchIgn jokeFoundIgn q now wc jc upW upJ out hws hr
        have h2 := process_no_joke_fields wErrMsgFunctions weatherSearchIgn jokeFoundIgn q now wc jc upW upJ out hjf hr
        exact ⟨h1.2.2.2.1, h1.2.2.2.2, h2.2.2.2.1, h2.2.2.2.2⟩
      · have := (process_joke_fields wErrMsgFunctions weatherSearchIgn jokeFoundIgn q now wc jc upW upJ out hjf hr)
        obtain ⟨_, _, _, _, _, _, _, _, _, hgen⟩ := this
        rw [hgen] at hG
        simp at hG
    · obtain ⟨_, _, _, _, _, _, _, _, _, hgen⟩ :=
        process_weather_fields wErrMsgFunctions weatherSearchIgn jokeFoundIgn q now wc jc upW upJ g2 out hws hr
      rw [hgen] at hG
      simp at hG
  · intro upW' out' hr'
    rcases hjJ upW' out' hr' with ⟨h1, h2, _⟩ | ⟨_, h1, h2, h3, h4⟩
    · exact ⟨h1, h2⟩
    · rw [h1, h2, h3, h4]
      exact ⟨rfl, rfl⟩
  · intro upJ' out' hr'
    rcases hwW upJ' out' hr' with ⟨h1, h2, _⟩ | ⟨_, h1, h2, h3, h4⟩
    · exact ⟨h1, h2⟩
    · rw [h1, h2, h3, h4]
      exact ⟨rfl, rfl⟩

theorem C6_aggregated_response_invariant_witness :
    process_query_functions (.str "joke about weather in tokyo") 0 [] []
        .transportError
        (.response 200 (.obj [("setup", .str "s"), ("punchline", .str "p")]))
      = .ok { fr := { weather_error := some wErrMsgFunctions,
                      joke := some { setup := .str "s", punchline := .str "p" } },
              wc := [],
              jc := [("joke", { data := { setup := .str "s",
                                          punchline := .str "p" },
                                expiry := 60 })],
              weatherCalls := ["tokyo"], jokeCalls := 1, wHttp := 1,
              jHttp := 1 } ∧
    ((wantsWeather "joke about weather in tokyo" = true →
       (({ weather_error := some wErrMsgFunctions,
           joke := some { setup := .str "s", punchline := .str "p" } }
          : FinalResponse).weather.isSome ≠
        ({ weather_error := some wErrMsgFunctions,
           joke := some { setup := .str "s", punchline := .str "p" } }
          : FinalResponse).weather_error.isSome)) ∧
     (jokeFound (pyLowerL "joke about weather in tokyo".toList) = true →
       (({ weather_error := some wErrMsgFunctions,
           joke := some { setup := .str "s", punchline := .str "p" } }
          : FinalResponse).joke.isSome ≠
        ({ weather_error := some wErrMsgFunctions,
           joke := some { setup := .str "s", punchline := .str "p" } }
          : FinalResponse).joke_error.isSome))) := by
  have hrun :
      process_query_functions (.str "joke about weather in tokyo") 0 [] []
          .transportError
          (.response 200 (.obj [("setup", .str "s"), ("punchline", .str "p")]))
        = .ok { fr := { weather_error := some wErrMsgFunctions,
                        joke := some { setup := .str "s", punchline := .str "p" } },
                wc := [],
                jc := [("joke", { data := { setup := .str "s",
                                            punchline := .str "p" },
                                  expiry := 60 })],
                weatherCalls := ["tokyo"], jokeCalls := 1, wHttp := 1,
                jHttp := 1 } := rfl
  have hall := C6_aggregated_response_invariant "joke about weather in tokyo"
    0 [] [] .transportError
    (.response 200 (.obj [("setup", .str "s"), ("punchline", .str "p")]))
    _ hrun
  exact ⟨hrun, hall.1, hall.2.2.1⟩

/-- Claim C7 (confirmed).  Two successive `fetchWeather(city)` calls, the
second strictly before the expiry stamped in the cache by the first, issue
at most one upstream HTTP call in total and return the same
`WeatherResult`: the second call is a pure cache hit returning the stored
data unchanged. -/
theorem C7_cache_idempotent (city : String) (t0 t1 : Int) (cache : WCache)
    (up1 up2 : HttpOutcome) (r1 : WRet) (c1 : WCache) (n1 : Nat)
    (e : Entry WeatherData)
    (h1 : get_weather_lambda city t0 cache up1 = .ok (r1, c1, n1))
    (hf : assocFind c1 city = some e) (ht : t0 ≤ t1) (hexp : t1 < e.expiry) :
    get_weather_lambda city t1 c1 up2 = .ok (.data e.data, c1, 0) ∧
    n1 + 0 ≤ 1 ∧ r1 = .data e.data := by
  have hhit : cacheRead c1 city t1 = some e.data := by
    simp [cacheRead, hf, hexp]
  refine ⟨?_, ?_, ?_⟩
  · simp [get_weather_lambda, get_weather_core, hhit]
  · rcases get_weather_core_cases _ city t0 cache up1 r1 c1 n1 h1 with
      ⟨d, _, _, _, hn⟩ | ⟨_, _, _, hn⟩ | ⟨d, _, _, _, hn⟩ <;> omega
  · rcases get_weather_core_cases _ city t0 cache up1 r1 c1 n1 h1 with
      ⟨d, hcr, hrd, hcc, _⟩ | ⟨hcr, _, hcc, _⟩ | ⟨d, hcr, hrd, hcc, _⟩
    · -- first call was itself a cache hit: the entry it read is `e`
      subst hcc
      simp only [cacheRead] at hcr
      rw [hf] at hcr
      dsimp only at hcr
      by_cases hgt : e.expiry > t0
      · rw [if_pos hgt] at hcr
        rw [hrd]
        simpa using hcr.symm
      · rw [if_neg hgt] at hcr
        simp at hcr
    · -- first call failed: any entry for `city` would be stale, contradiction
      subst hcc
      simp only [cacheRead] at hcr
      rw [hf] at hcr
      dsimp only at hcr
      by_cases hgt : e.expiry > t0
      · rw [if_pos hgt] at hcr
        simp at hcr
      · omega
    · -- first call fetched and cached: `e` is the freshly written entry
      subst hcc
      rw [assocFind_assocPut_self] at hf
      have : e = { data := d, expiry := t0 + WEATHER_CACHE_EXPIRY_SECONDS } :=
        by injection hf.symm
      rw [hrd, this]

theorem C7_cache_idempotent_witness :
    get_weather_lambda "paris" 0 []
        (.response 200 (.obj [("name", .str "Paris"),
          ("weather", .arr [.obj [("description", .str "clear sky")]]),
          ("main", .obj [("temp", .num 18)])]))
      = .ok (.data { city_name := .str "Paris",
                     description := .str "clear sky",
                     temperature_celsius := .num 18 },
             [("paris", { data := { city_name := .str "Paris",
                                    description := .str "clear sky",
                                    temperature_celsius := .num 18 },
                          expiry := 60 })], 1) ∧
    (get_weather_lambda "paris" 30
        [("paris", { data := { city_name := .str "Paris",
                               description := .str "clear sky",
                               temperature_celsius := .num 18 },
                     expiry := 60 })] .transportError
      = .ok (.data { city_name := .str "Paris",
                     description := .str "clear sky",
                     temperature_celsius := .num 18 },
             [("paris", { data := { city_name := .str "Paris",
                                    description := .str "clear sky",
                                    temperature_celsius := .num 18 },
                          expiry := 60 })], 0) ∧
     1 + 0 ≤ 1 ∧
     (WRet.data { city_name := .str "Paris", description := .str "clear sky",
                  temperature_celsius := .num 18 }
        = .data { city_name := .str "Paris", description := .str "clear sky",
                  temperature_celsius := .num 18 })) :=
  ⟨rfl,
   C7_cache_idempotent "paris" 0 30 []
     (.response 200 (.obj [("name", .str "Paris"),
       ("weather", .arr [.obj [("description", .str "clear sky")]]),
       ("main", .obj [("temp", .num 18)])]))
     .transportError _ _ _
     { data := { city_name := .str "Paris", description := .str "clear sky",
                 temperature_celsius := .num 18 }, expiry := 60 }
     rfl rfl (by decide) (by decide)⟩

/-- Claim C8 (confirmed).  A cache read returns the stored value iff an entry
exists for the key and the current time is strictly before its expiry; an
entry whose expiry is at or before the current time reads as absent,
exactly like a key that was never cached. -/
theorem C8_cache_read_contract {α : Type} (cache : List (String × Entry α))
    (k : String) (now : Int) :
    (∀ v, cacheRead cache k now = some v ↔
      ∃ e, assocFind cache k = some e ∧ now < e.expiry ∧ v = e.data) ∧
    (∀ e, assocFind cache k = some e → e.expiry ≤ now →
      cacheRead cache k now = none ∧
      cacheRead (assocDrop k cache) k now = none) := by
  constructor
  · intro v
    simp only [cacheRead]
    rcases haf : assocFind cache k with _ | e
    · simp
    · by_cases hgt : e.expiry > now
      · simp only [if_pos hgt]
        constructor
        · intro hv
          exact ⟨e, rfl, hgt, by simpa using hv.symm⟩
        · rintro ⟨e', he', _, hv⟩
          obtain rfl : e = e' := Option.some.inj he'
          simp [hv]
      · simp only [if_neg hgt]
        constructor
        · intro hv
          simp at hv
        · rintro ⟨e', he', hlt, _⟩
          obtain rfl : e = e' := Option.some.inj he'
          omega
  · intro e haf hle
    constructor
    · simp only [cacheRead, haf]
      rw [if_neg (by omega)]
    · simp only [cacheRead, assocFind_assocDrop]

theorem C8_cache_read_contract_witness :
    cacheRead [("x", { data := (0 : Int), expiry := 5 })] "x" 7 = none ∧
    cacheRead (assocDrop "x" [("x", { data := (0 : Int), expiry := 5 })])
        "x" 7 = none :=
  (C8_cache_read_contract [("x", { data := (0 : Int), expiry := 5 })] "x" 7).2
    { data := (0 : Int), expiry := 5 } rfl (by decide)

/-- A bare keyword followed by one whitespace character never matches either
pattern under either variant's comparison (`\s+` consumes the single
whitespace and `(.+)` then has nothing left), and Python whitespace is fixed
by `str.lower`. -/
theorem keyword_single_ws_no_match :
    ∀ c ∈ pySpaceList,
      weatherSearch ("weather".toList ++ [c]) = none ∧
      weatherSearch ("forecast".toList ++ [c]) = none ∧
      weatherSearch ("temperature".toList ++ [c]) = none ∧
      weatherSearchIgn ("weather".toList ++ [c]) = none ∧
      weatherSearchIgn ("forecast".toList ++ [c]) = none ∧
      weatherSearchIgn ("temperature".toList ++ [c]) = none ∧
      jokeFound ("weather".toList ++ [c]) = false ∧
      jokeFound ("forecast".toList ++ [c]) = false ∧
      jokeFound ("temperature".toList ++ [c]) = false ∧
      jokeFoundIgn ("weather".toList ++ [c]) = false ∧
      jokeFoundIgn ("forecast".toList ++ [c]) = false ∧
      jokeFoundIgn ("temperature".toList ++ [c]) = false ∧
      pyLowerChar c = c := by decide

theorem keyword_alone_no_match :
    weatherSearch "weather".toList = none ∧
    weatherSearch "forecast".toList = none ∧
    weatherSearch "temperature".toList = none ∧
    weatherSearchIgn "weather".toList = none ∧
    weatherSearchIgn "forecast".toList = none ∧
    weatherSearchIgn "temperature".toList = none ∧
    jokeFound "weather".toList = false ∧
    jokeFound "forecast".toList = false ∧
    jokeFound "temperature".toList = false ∧
    jokeFoundIgn "weather".toList = false ∧
    jokeFoundIgn "forecast".toList = false ∧
    jokeFoundIgn "temperature".toList = false := by decide

/-- Claim C10 (counterexample).  The claim says a query consisting of a weather
keyword with no following whitespace-separated text never matches.  With two
trailing space characters, `"weather  "`, the pattern DOES match in both
variants (`\s+` takes one space, `\s*` none, `(.+)` captures the other
space), the city trims to empty, and the fetcher runs: the response is
`weather_error` (under a failing upstream), not the `general_response`
fallback. -/
theorem C10_trailing_spaces_match :
    weatherSearch (pyLowerL "weather  ".toList) = some [' '] ∧
    weatherSearchIgn (pyLowerL "weather  ".toList) = some [' '] ∧
    wantsWeather "weather  " = true ∧
    wantsWeatherIgn "weather  " = true ∧
    (process_query_functions (.str "weather  ") 0 [] []
        .transportError .transportError).map
      (fun o => (o.fr.general_response, o.fr.weather_error.isSome,
                 o.weatherCalls))
      = .ok (none, true, [""]) ∧
    (process_query_lambda (.str "weather  ") 0 [] []
        .transportError .transportError).map
      (fun o => (o.fr.general_response, o.fr.weather_error.isSome,
                 o.weatherCalls))
      = .ok (none, true, [""]) :=
  ⟨rfl, rfl, rfl, rfl, rfl, rfl⟩

/-- Claim C10 (amended).  For a query that is exactly a weather keyword, or a
weather keyword followed by a single whitespace character, the weather
pattern does not match in either variant, `wantsWeather` is false, and (no
joke keyword being present in any of these queries) the assembled response
of both variants is exactly
`{"general_response": "I can only process weather and joke requests."}`
with no fetcher invoked.  Queries with further trailing whitespace can
match: two trailing spaces do (see the counterexample), while e.g. a space
followed by a newline still does not (`(.+)` cannot start at a newline). -/
theorem C10_bare_keyword_no_match (kw : String) (tail : List Char)
    (hkw : kw = "weather" ∨ kw = "forecast" ∨ kw = "temperature")
    (htail : tail = [] ∨ ∃ c, pySpace c = true ∧ tail = [c])
    (now : Int) (wc : WCache) (jc : JCache) (upW upJ : HttpOutcome) :
    weatherSearch (pyLowerL (kw.toList ++ tail)) = none ∧
    weatherSearchIgn (pyLowerL (kw.toList ++ tail)) = none ∧
    wantsWeather (String.mk (kw.toList ++ tail)) = false ∧
    wantsWeatherIgn (String.mk (kw.toList ++ tail)) = false ∧
    process_query_functions (.str (String.mk (kw.toList ++ tail)))
        now wc jc upW upJ
      = .ok { fr := { general_response := some generalMsg }, wc := wc,
              jc := jc, weatherCalls := [], jokeCalls := 0, wHttp := 0,
              jHttp := 0 } ∧
    process_query_lambda (.str (String.mk (kw.toList ++ tail)))
        now wc jc upW upJ
      = .ok { fr := { general_response := some generalMsg }, wc := wc,
              jc := jc, weatherCalls := [], jokeCalls := 0, wHttp := 0,
              jHttp := 0 } := by
  have hfix : pyLowerL (kw.toList ++ tail) = kw.toList ++ tail := by
    rcases htail with rfl | ⟨c, hc, rfl⟩
    · rcases hkw with rfl | rfl | rfl <;> decide
    · have hmem : c ∈ pySpaceList := of_decide_eq_true hc
      have hlc :=
        (keyword_single_ws_no_match c hmem).2.2.2.2.2.2.2.2.2.2.2.2
      rcases hkw with rfl | rfl | rfl <;>
        simp [pyLowerL, hlc] <;> decide
  have hsearch : weatherSearch (kw.toList ++ tail) = none := by
    rcases htail with rfl | ⟨c, hc, rfl⟩
    · rcases hkw with rfl | rfl | rfl
      · simpa using keyword_alone_no_match.1
      · simpa using keyword_alone_no_match.2.1
      · simpa using keyword_alone_no_match.2.2.1
    · have hmem : c ∈ pySpaceList := of_decide_eq_true hc
      have h := keyword_single_ws_no_match c hmem
      rcases hkw with rfl | rfl | rfl
      · exact h.1
      · exact h.2.1
      · exact h.2.2.1
  have hsearchI : weatherSearchIgn (kw.toList ++ tail) = none := by
    rcases htail with rfl | ⟨c, hc, rfl⟩
    · rcases hkw with rfl | rfl | rfl
      · simpa using keyword_alone_no_match.2.2.2.1
      · simpa using keyword_alone_no_match.2.2.2.2.1
      · simpa using keyword_alone_no_match.2.2.2.2.2.1
    · have hmem : c ∈ pySpaceList := of_decide_eq_true hc
      have h := keyword_single_ws_no_match c hmem
      rcases hkw with rfl | rfl | rfl
      · exact h.2.2.2.1
      · exact h.2.2.2.2.1
      · exact h.2.2.2.2.2.1
  have hjoke : jokeFound (kw.toList ++ tail) = false := by
    rcases htail with rfl | ⟨c, hc, rfl⟩
    · rcases hkw with rfl | rfl | rfl
      · exact keyword_alone_no_match.2.2.2.2.2.2.1
      · exact keyword_alone_no_match.2.2.2.2.2.2.2.1
      · exact keyword_alone_no_match.2.2.2.2.2.2.2.2.1
    · have hmem : c ∈ pySpaceList := of_decide_eq_true hc
      have h := keyword_single_ws_no_match c hmem
      rcases hkw with rfl | rfl | rfl
      · exact h.2.2.2.2.2.2.1
      · exact h.2.2.2.2.2.2.2.1
      · exact h.2.2.2.2.2.2.2.2.1
  have hjokeI : jokeFoundIgn (kw.toList ++ tail) = false := by
    rcases htail with rfl | ⟨c, hc, rfl⟩
    · rcases hkw with rfl | rfl | rfl
      · exact keyword_alone_no_match.2.2.2.2.2.2.2.2.2.1
      · exact keyword_alone_no_match.2.2.2.2.2.2.2.2.2.2.1
      · exact keyword_alone_no_match.2.2.2.2.2.2.2.2.2.2.2
    · have hmem : c ∈ pySpaceList := of_decide_eq_true hc
      have h := keyword_single_ws_no_match c hmem
      rcases hkw with rfl | rfl | rfl
      · exact h.2.2.2.2.2.2.2.2.2.1
      · exact h.2.2.2.2.2.2.2.2.2.2.1
      · exact h.2.2.2.2.2.2.2.2.2.2.2.1
  have htl : (String.mk (kw.toList ++ tail)).toList = kw.toList ++ tail := rfl
  refine ⟨by rw [hfix]; exact hsearch, by rw [hfix]; exact hsearchI,
          ?_, ?_, ?_, ?_⟩
  · unfold wantsWeather
    rw [htl, hfix, hsearch]
    rfl
  · unfold wantsWeatherIgn
    rw [htl, hfix, hsearchI]
    rfl
  · exact process_neither_fields wErrMsgFunctions weatherSearchIgn jokeFoundIgn
      (String.mk (kw.toList ++ tail)) now wc jc upW upJ
      (by rw [htl, hfix]; exact hsearchI)
      (by rw [htl, hfix]; exact hjokeI)
  · exact process_neither_fields wErrMsgLambda weatherSearch jokeFound
      (String.mk (kw.toList ++ tail)) now wc jc upW upJ
      (by rw [htl, hfix]; exact hsearch)
      (by rw [htl, hfix]; exact hjoke)

theorem C10_bare_keyword_no_match_witness :
    ("weather" = "weather" ∨ "weather" = "forecast" ∨
      "weather" = "temperature") ∧
    (([' '] : List Char) = [] ∨ ∃ c, pySpace c = true ∧ [' '] = [c]) ∧
    (weatherSearch (pyLowerL ("weather".toList ++ [' '])) = none ∧
     weatherSearchIgn (pyLowerL ("weather".toList ++ [' '])) = none ∧
     wantsWeather (String.mk ("weather".toList ++ [' '])) = false ∧
     wantsWeatherIgn (String.mk ("weather".toList ++ [' '])) = false ∧
     process_query_functions (.str (String.mk ("weather".toList ++ [' '])))
         0 [] [] .transportError .transportError
       = .ok { fr := { general_response := some generalMsg }, wc := [],
               jc := [], weatherCalls := [], jokeCalls := 0, wHttp := 0,
               jHttp := 0 } ∧
     process_query_lambda (.str (String.mk ("weather".toList ++ [' '])))
         0 [] [] .transportError .transportError
       = .ok { fr := { general_response := some generalMsg }, wc := [],
               jc := [], weatherCalls := [], jokeCalls := 0, wHttp := 0,
               jHttp := 0 }) :=
  ⟨Or.inl rfl, Or.inr ⟨' ', by decide, rfl⟩,
   C10_bare_keyword_no_match "weather" [' '] (Or.inl rfl)
     (Or.inr ⟨' ', by decide, rfl⟩) 0 [] [] .transportError .transportError⟩

/-- The two `extract_query` variants differ exactly in `user_query`: the
functions variant always returns `user_query = query`. -/
theorem extract_query_core_relation (event : Event) :
    extract_query_core true event
      = (extract_query_core false event).map (fun p => (p.1, p.1)) := by
  unfold extract_query_core
  rcases hb : dictFind event "body" with _ | b <;> (try dsimp only)
  case none =>
    rcases hq : dictFind event "queryStringParameters" with _ | qs <;>
      (try dsimp only)
    · rfl
    · cases ht : jTruthy qs <;> (try dsimp only)
      · rfl
      · rcases hg : dictGetQuery qs with e | q <;> (try dsimp only)
        · cases e <;> rfl
        · rfl
  case some =>
    cases ht : jTruthy b <;> (try dsimp only)
    · rcases hq : dictFind event "queryStringParameters" with _ | qs <;>
        (try dsimp only)
      · rfl
      · cases ht' : jTruthy qs <;> (try dsimp only)
        · rfl
        · rcases hg : dictGetQuery qs with e | q <;> (try dsimp only)
          · cases e <;> rfl
          · rfl
    · rcases hl : jsonLoads b with e | rb <;> (try dsimp only)
      · cases e <;> rfl
      · rcases hg : dictGetQuery rb with e | q <;> (try dsimp only)
        · cases e <;> rfl
        · rfl

/-- The two `get_weather` variants differ exactly in the error-dict
message. -/
theorem get_weather_core_relation (city : String) (now : Int) (cache : WCache)
    (up : HttpOutcome) :
    get_weather_core wErrMsgFunctions city now cache up
      = (get_weather_core wErrMsgLambda city now cache up).map
          (fun t => (adjWRet t.1, t.2.1, t.2.2)) := by
  unfold get_weather_core
  rcases hcr : cacheRead cache city now with _ | d <;> dsimp only
  · rcases up with _ | ⟨st, body⟩ <;> dsimp only
    · rfl
    · by_cases hst : raisesForStatus st = true
      · rw [if_pos hst, if_pos hst]
        rfl
      · rw [if_neg hst, if_neg hst]
        rcases h1 : getItem body "name" with e1 | name <;> dsimp only
        · rfl
        rcases h2 : getItem body "weather" with e2 | wlist <;> dsimp only
        · rfl
        rcases h3 : index0 wlist with e3 | w0 <;> dsimp only
        · rfl
        rcases h4 : getItem w0 "description" with e4 | desc <;> dsimp only
        · rfl
        rcases h5 : getItem body "main" with e5 | main <;> dsimp only
        · rfl
        rcases h6 : getItem main "temp" with e6 | temp <;> dsimp only
        · rfl
        · rfl
  · rfl

/-- With the same searches plugged in, the two `process_query` bodies differ
exactly by the weather error message adjustment `adjW` on the final
response. -/
theorem process_query_core_relation
    (wS : List Char → Option (List Char)) (jF : List Char → Bool)
    (query : JVal) (now : Int) (wc : WCache)
    (jc : JCache) (upW upJ : HttpOutcome) :
    process_query_core wErrMsgFunctions wS jF query now wc jc upW upJ
      = (process_query_core wErrMsgLambda wS jF query now wc jc upW upJ).map
          (fun o => { o with fr := adjW o.fr }) := by
  unfold process_query_core
  cases query <;> (try dsimp only) <;> try rfl
  case str q =>
  rcases hws : wS (pyLowerL q.toList) with _ | g2 <;> (try dsimp only)
  · cases hjf : jF (pyLowerL q.toList) <;> (try dsimp only)
    · simp [adjW, FinalResponse.isEmptyDict, generalMsg, Except.map]
    · rcases hj : get_joke now jc upJ with e' | ⟨jret, jc', jn⟩ <;>
        (try dsimp only)
      · rfl
      · rcases jret with jd | jm <;>
          simp [adjW, FinalResponse.isEmptyDict, Except.map]
  · rw [get_weather_core_relation]
    rcases hgw : get_weather_core wErrMsgLambda (String.mk (cityOf g2)) now wc upW
      with e | ⟨ret, wc', n⟩ <;> (try dsimp only)
    · rfl
    · rcases ret with d | m <;> (try dsimp only [adjWRet]) <;>
        cases hjf : jF (pyLowerL q.toList) <;> (try dsimp only)
      · simp [adjW, FinalResponse.isEmptyDict, Except.map]
      · rcases hj : get_joke now jc upJ with e' | ⟨jret, jc', jn⟩ <;>
          (try dsimp only)
        · rfl
        · rcases jret with jd | jm <;>
            simp [adjW, FinalResponse.isEmptyDict, Except.map]
      · simp [adjW, FinalResponse.isEmptyDict, Except.map]
      · rcases hj : get_joke now jc upJ with e' | ⟨jret, jc', jn⟩ <;>
          (try dsimp only)
        · rfl
        · rcases jret with jd | jm <;>
            simp [adjW, FinalResponse.isEmptyDict, Except.map]

/-- Two instantiations of `process_query` whose searches agree on the
processed query's lowercased text behave identically. -/
theorem process_query_core_congr (errMsg : String)
    (wS1 wS2 : List Char → Option (List Char)) (jF1 jF2 : List Char → Bool)
    (s : String) (now : Int) (wc : WCache) (jc : JCache)
    (upW upJ : HttpOutcome)
    (hw : wS1 (pyLowerL s.toList) = wS2 (pyLowerL s.toList))
    (hj : jF1 (pyLowerL s.toList) = jF2 (pyLowerL s.toList)) :
    process_query_core errMsg wS1 jF1 (.str s) now wc jc upW upJ
      = process_query_core errMsg wS2 jF2 (.str s) now wc jc upW upJ := by
  unfold process_query_core
  dsimp only
  rw [hw, hj]

/-- Claim C9 (amended).  The two variants are NOT observably equivalent;
they differ in exactly three respects: a failed weather fetch's message
gains/loses its trailing period (`adjW` on the response), the audit
record's query text (the functions variant always logs the processed query
`queryUsed`, while the lambda variant's `userQuery` is empty unless the
query came from the top-level field), and the routing itself on queries
containing the Unicode IGNORECASE equivalents long s / dotless i (see the
counterexample).  Whenever the two routers agree on the processed query —
in particular on every query free of those two characters — the runs
coincide up to the first two differences alone: status code, success
payloads, caches, fetch behaviour and exceptions are identical. -/
theorem C9_variants_relation (event : Event) (now : Int) (wc : WCache)
    (jc : JCache) (upW upJ : HttpOutcome)
    (hroute : ∀ q uq s, extract_query_core false event = .ok (q, uq) →
      q = .str s →
      weatherSearchIgn (pyLowerL s.toList) = weatherSearch (pyLowerL s.toList) ∧
      jokeFoundIgn (pyLowerL s.toList) = jokeFound (pyLowerL s.toList)) :
    lambda_handler_functions event now wc jc upW upJ
      = (lambda_handler_lambda event now wc jc upW upJ).map
          (fun h => { h with fr := h.fr.map adjW, userQuery := h.queryUsed }) := by
  unfold lambda_handler_functions lambda_handler_lambda lambda_handler_core
  rw [extract_query_core_relation]
  rcases hx : extract_query_core false event with e | ⟨q, uq⟩ <;>
    simp only [Except.map] <;> (try dsimp only)
  · cases hq : jTruthy q <;> (try dsimp only)
    · simp [Except.map]
    · cases q
      case str s =>
        obtain ⟨hw, hj⟩ := hroute (.str s) uq s hx rfl
        rw [process_query_core_congr wErrMsgFunctions weatherSearchIgn
              weatherSearch jokeFoundIgn jokeFound s now wc jc upW upJ hw hj]
        rw [process_query_core_relation]
        rcases hp : process_query_core wErrMsgLambda weatherSearch jokeFound
            (.str s) now wc jc upW upJ with e | out <;> simp [Except.map]
      all_goals simp [process_query_core, Except.map]

theorem C9_variants_relation_witness :
    (∀ q uq s,
      extract_query_core false [("query", JVal.str "tell me a joke")]
        = .ok (q, uq) →
      q = .str s →
      weatherSearchIgn (pyLowerL s.toList) = weatherSearch (pyLowerL s.toList) ∧
      jokeFoundIgn (pyLowerL s.toList) = jokeFound (pyLowerL s.toList)) ∧
    lambda_handler_functions [("query", JVal.str "tell me a joke")] 0 [] []
        .transportError
        (.response 200 (.obj [("setup", .str "s"), ("punchline", .str "p")]))
      = (lambda_handler_lambda [("query", JVal.str "tell me a joke")] 0 [] []
          .transportError
          (.response 200 (.obj [("setup", .str "s"), ("punchline", .str "p")]))).map
          (fun h => { h with fr := h.fr.map adjW, userQuery := h.queryUsed }) := by
  have hroute : ∀ q uq s,
      extract_query_core false [("query", JVal.str "tell me a joke")]
        = .ok (q, uq) →
      q = .str s →
      weatherSearchIgn (pyLowerL s.toList) = weatherSearch (pyLowerL s.toList) ∧
      jokeFoundIgn (pyLowerL s.toList) = jokeFound (pyLowerL s.toList) := by
    intro q uq s hx hqs
    have hx' : (JVal.str "tell me a joke", JVal.str "tell me a joke")
        = (q, uq) := by
      have h0 : extract_query_core false [("query", JVal.str "tell me a joke")]
          = .ok (.str "tell me a joke", .str "tell me a joke") := rfl
      rw [h0] at hx
      simpa using hx
    have hq : q = .str "tell me a joke" :=
      (congrArg Prod.fst hx').symm
    rw [hq] at hqs
    have hs : s = "tell me a joke" := by
      injection hqs.symm
    subst hs
    exact ⟨by decide, by decide⟩
  exact ⟨hroute,
    C9_variants_relation [("query", JVal.str "tell me a joke")] 0 [] []
      .transportError
      (.response 200 (.obj [("setup", .str "s"), ("punchline", .str "p")]))
      hroute⟩

/-- Claim C9 (counterexample).  On the event
`{"body": "{\"query\": \"weather in paris\"}"}` with a failing weather
upstream, the two variants return different envelopes (the error message
differs by its trailing period) and submit different audit records (the
lambda variant logs `Query = ""`).  And on the top-level query
`"forecaſt in paris"` (long s, U+017F, which survives `str.lower()`), the
routing itself differs: the lambda variant's flagless pattern does not match
and falls back to `general_response`, while the functions variant's
IGNORECASE pattern matches city `"paris"` and reports `weather_error`. -/
theorem C9_not_equivalent :
    (lambda_handler_lambda
        [("body", .str "\x7b\"query\": \"weather in paris\"\x7d")]
        0 [] [] .transportError .transportError).map
      (fun h => ((envelopeOf h).body, (auditOf h).map AuditRecord.query))
      = .ok ("\x7b\"weather_error\": \"Failed to fetch weather data due to an API error.\"\x7d",
             some (.str "")) ∧
    (lambda_handler_functions
        [("body", .str "\x7b\"query\": \"weather in paris\"\x7d")]
        0 [] [] .transportError .transportError).map
      (fun h => ((envelopeOf h).body, (auditOf h).map AuditRecord.query))
      = .ok ("\x7b\"weather_error\": \"Failed to fetch weather data due to an API error\"\x7d",
             some (.str "weather in paris")) ∧
    ("\x7b\"weather_error\": \"Failed to fetch weather data due to an API error.\"\x7d"
      ≠ "\x7b\"weather_error\": \"Failed to fetch weather data due to an API error\"\x7d") ∧
    (JVal.str "" ≠ JVal.str "weather in paris") ∧
    (lambda_handler_lambda [("query", .str "foreca\u017ft in paris")]
        0 [] [] .transportError .transportError).map
      (fun h => (envelopeOf h).body)
      = .ok "\x7b\"general_response\": \"I can only process weather and joke requests.\"\x7d" ∧
    (lambda_handler_functions [("query", .str "foreca\u017ft in paris")]
        0 [] [] .transportError .transportError).map
      (fun h => (envelopeOf h).body)
      = .ok "\x7b\"weather_error\": \"Failed to fetch weather data due to an API error\"\x7d" ∧
    ("\x7b\"general_response\": \"I can only process weather and joke requests.\"\x7d"
      ≠ "\x7b\"weather_error\": \"Failed to fetch weather data due to an API error\"\x7d") ∧
    wantsWeather "foreca\u017ft in paris" = false ∧
    wantsWeatherIgn "foreca\u017ft in paris" = true :=
  ⟨rfl, rfl, by decide, by simp, rfl, rfl, by decide, rfl, rfl⟩

end Gracychat
